import Mathlib

/-!
Verification of the reconciliation engine of `alertmanager-github-receiver`.

This file shallowly embeds the Go sources of the repository:

* `alerts/handler.go`   — the `ReceiverHandler` webhook engine (`processAlert`,
  `ServeHTTP`, `getTargetRepo`);
* `alerts/template.go`  — the default title/body templates and their rendering;
* `issues/issues.go`    — the GitHub tracker client (`CreateIssue` request
  construction, `LabelIssue`, `getOrgAndRepoFromIssue`);
* `issues/handler.go`   — the open-issues list page handler;
* `issues/local/local.go` and the in-repo fake clients — the in-memory tracker;
* the annotation-extension variant of the engine (the `processAlert` that
  consults `github-labels` / `github-project-column-id` annotations and calls
  `AssignIssueToProject`).

Maps (`template.KV`, `map[string]string`) are embedded as association lists,
Go errors as `Except String`, and the stateful tracker as an explicit
state-passing record of operations.  Each engine run additionally returns the
ordered trace of tracker calls it performed, so that claims about which calls
occur (and in which order) become statements about that trace.
-/

namespace AGR

/-- Association-list embedding of Go `map[string]string` / `template.KV`. -/
abbrev KV := List (String × String)

/-- Go map read `m[k]`: the stored value, or the zero value `""` when the key
is absent. -/
def kvGet (kv : KV) (k : String) : String :=
  match kv.find? (fun p => p.1 = k) with
  | some p => p.2
  | none => ""

/-- Go two-result map read `v, ok := m[k]`. -/
def kvFind (kv : KV) (k : String) : Option String :=
  (kv.find? (fun p => p.1 = k)).map (fun p => p.2)

/-- One element of `Data.Alerts` (`template.Alert`): the fields read by the
engine and the default templates. -/
structure Alert where
  status : String
  labels : KV
  annotations : KV
  generatorURL : String
deriving Repr, DecidableEq

/-- `template.Data`: the payload shared by all alertmanager webhook versions.
Only the fields the engine reads are embedded. -/
structure MsgData where
  status : String
  groupLabels : KV
  commonLabels : KV
  commonAnnotations : KV
  externalURL : String
  alerts : List Alert
deriving Repr, DecidableEq

/-- `webhook.Message`: `Data` plus the group key.  Go field promotion makes
`msg.CommonLabels` read `msg.Data.CommonLabels`. -/
structure Message where
  data : MsgData
  groupKey : String
deriving Repr, DecidableEq

/-- The slice of a `github.Issue` the receiver reads: `Title`, `Number`,
`RepositoryURL`, `HTMLURL`, plus body and labels for state tracking. -/
structure Issue where
  number : Nat
  title : String
  body : String
  labels : List String
  repositoryURL : String
  htmlURL : String
deriving Repr, DecidableEq

/-- One tracker call, as observed at the `ReceiverClient` interface boundary.
`assignIssueToProject` carries an `Option Issue` because the Go code passes
the (possibly `nil`) issue pointer returned by `CreateIssue`. -/
inductive Call where
  | listOpenIssues
  | createIssue (repo title body : String) (extra : List String)
  | labelIssue (issue : Issue) (label : String) (add : Bool)
  | closeIssue (issue : Issue)
  | assignIssueToProject (issue : Option Issue) (columnId : Int)
deriving Repr, DecidableEq

/-- A call is a tracker *write* unless it is `ListOpenIssues`. -/
def Call.isWrite : Call → Bool
  | .listOpenIssues => false
  | _ => true

/-- Recognize `AssignIssueToProject` calls. -/
def Call.isAssign : Call → Bool
  | .assignIssueToProject _ _ => true
  | _ => false

/-- Recognize `CreateIssue` calls. -/
def Call.isCreate : Call → Bool
  | .createIssue _ _ _ _ => true
  | _ => false

/-- Errors surfaced by `processAlert`: a tracker-call error passed through
verbatim, or a template error wrapped by
`fmt.Errorf("format title for %q: %s", msg.GroupKey, err)` (resp. body). -/
inductive PErr where
  | tracker (e : String)
  | formatTitle (groupKey e : String)
  | formatBody (groupKey e : String)
deriving Repr, DecidableEq

/-- The `ReceiverClient` capability, embedded as an explicit state-passing
record: each operation consumes a tracker state `σ` and returns its Go
result together with the successor state. -/
structure TrackerImpl (σ : Type) where
  listOpenIssues : σ → Except String (List Issue) × σ
  createIssue : String → String → String → List String → σ → Except String Issue × σ
  labelIssue : Issue → String → Bool → σ → Except String Unit × σ
  closeIssue : Issue → σ → Except String Issue × σ
  assignIssueToProject : Option Issue → Int → σ → Except String Unit × σ

/-- `alerts.ReceiverHandler` (current version in `alerts/handler.go`).  The two
parsed templates are embedded as their `Execute` functions: message to
rendered text or execution error. -/
structure ReceiverHandler where
  autoClose : Bool
  resolvedLabel : String
  defaultRepo : String
  extraLabels : List String
  titleTmpl : Message → Except String String
  alertTmpl : Message → Except String String

/-- `ReceiverHandler.getTargetRepo`: the `"repo"` common label when non-empty,
else the default repository. -/
def ReceiverHandler.getTargetRepo (rh : ReceiverHandler) (msg : Message) : String :=
  let repo := kvGet msg.data.commonLabels "repo"
  if repo ≠ "" then repo else rh.defaultRepo

/-- The matching loop inside `processAlert`:
`for _, issue := range issues { if msgTitle == *issue.Title { foundIssue = issue; break } }`. -/
def findIssue (msgTitle : String) : List Issue → Option Issue
  | [] => none
  | issue :: rest =>
      if msgTitle = issue.title then some issue else findIssue msgTitle rest

/-- `ReceiverHandler.processAlert` (current version, `alerts/handler.go`):
list open issues, render the title, scan for a matching open issue, then
 * firing & no match   — render the body and `CreateIssue` with the extra labels;
 * firing & match      — `LabelIssue(found, resolvedLabel, false)` (remove);
 * resolved & match    — `LabelIssue(found, resolvedLabel, true)` (add), then
   `CloseIssue(found)` when `AutoClose` is set;
 * otherwise           — no further call, `nil` error.
The result carries the returned error, the final tracker state, and the
ordered trace of tracker calls performed. -/
def processAlert {σ : Type} (rh : ReceiverHandler) (t : TrackerImpl σ) (s : σ)
    (msg : Message) : Except PErr Unit × σ × List Call :=
  match t.listOpenIssues s with
  | (.error e, s1) => (.error (.tracker e), s1, [.listOpenIssues])
  | (.ok issues, s1) =>
    match rh.titleTmpl msg with
    | .error e => (.error (.formatTitle msg.groupKey e), s1, [.listOpenIssues])
    | .ok msgTitle =>
      let foundIssue := findIssue msgTitle issues
      if msg.data.status = "firing" then
        match foundIssue with
        | none =>
          match rh.alertTmpl msg with
          | .error e => (.error (.formatBody msg.groupKey e), s1, [.listOpenIssues])
          | .ok msgBody =>
            let r := t.createIssue (rh.getTargetRepo msg) msgTitle msgBody rh.extraLabels s1
            ((r.1.map fun _ => ()).mapError .tracker, r.2,
             [.listOpenIssues,
              .createIssue (rh.getTargetRepo msg) msgTitle msgBody rh.extraLabels])
        | some issue =>
          let r := t.labelIssue issue rh.resolvedLabel false s1
          (r.1.mapError .tracker, r.2,
           [.listOpenIssues, .labelIssue issue rh.resolvedLabel false])
      else if msg.data.status = "resolved" then
        match foundIssue with
        | some issue =>
          let r := t.labelIssue issue rh.resolvedLabel true s1
          match r.1 with
          | .error e =>
            (.error (.tracker e), r.2,
             [.listOpenIssues, .labelIssue issue rh.resolvedLabel true])
          | .ok _ =>
            if rh.autoClose then
              let c := t.closeIssue issue r.2
              ((c.1.map fun _ => ()).mapError .tracker, c.2,
               [.listOpenIssues, .labelIssue issue rh.resolvedLabel true,
                .closeIssue issue])
            else
              (.ok (), r.2,
               [.listOpenIssues, .labelIssue issue rh.resolvedLabel true])
        | none => (.ok (), s1, [.listOpenIssues])
      else (.ok (), s1, [.listOpenIssues])

/-- `strings.Split` on a single-character separator: every separator
occurrence splits, empty segments are kept, and the empty string yields one
empty segment. -/
def splitCharAux (sep : Char) : List Char → List Char → List String
  | [], acc => [String.mk acc.reverse]
  | c :: rest, acc =>
      if c = sep then String.mk acc.reverse :: splitCharAux sep rest []
      else splitCharAux sep rest (c :: acc)

/-- `strings.Split(s, sep)` for a one-character `sep`. -/
def splitChar (sep : Char) (s : String) : List String :=
  splitCharAux sep s.toList []

/-- Digit-string core of `strconv.ParseInt` base 10: at least one character,
all decimal digits. -/
def parseDigits (cs : List Char) : Option Nat :=
  if cs = [] then none
  else if cs.all Char.isDigit then
    some (cs.foldl (fun n c => 10 * n + (c.toNat - 48)) 0)
  else none

/-- `strconv.ParseInt(s, 10, 64)`: optional sign, decimal digits, 64-bit
signed range; `none` on any syntax error or overflow (Go returns a non-nil
`err` in those cases). -/
def parseInt64 (s : String) : Option Int :=
  let cs := s.toList
  let signed : Int × List Char :=
    match cs with
    | c :: rest =>
        if c = '-' then (-1, rest) else if c = '+' then (1, rest) else (1, cs)
    | [] => (1, [])
  match parseDigits signed.2 with
  | none => none
  | some n =>
      let v : Int := signed.1 * (n : Int)
      if -(2 ^ 63) ≤ v ∧ v ≤ 2 ^ 63 - 1 then some v else none

/-- `alerts.GithubInfo`: labels and project-column id extracted from the first
alert's annotations (annotation-extension engine). -/
structure GithubInfo where
  additionalLabels : List String
  projectColumnId : Int
deriving Repr, DecidableEq

/-- `parseAdditionalGithubInfo`: split the `"github-labels"` annotation on
commas (absent annotation leaves the field nil/empty), and parse the
`"github-project-column-id"` annotation with `strconv.ParseInt`; any parse
error (including the absent-key zero value `""`) yields column id 0. -/
def parseAdditionalGithubInfo (annotations : KV) : GithubInfo :=
  let addl : List String :=
    match kvFind annotations "github-labels" with
    | some lblStr => splitChar ',' lblStr
    | none => []
  let columnIdStr := kvGet annotations "github-project-column-id"
  let columnId : Int :=
    match parseInt64 columnIdStr with
    | some v => v
    | none => 0
  { additionalLabels := addl, projectColumnId := columnId }

/-- The annotation-extension variant of `ReceiverHandler`: same configuration,
but only the title template is a handler field; the body is produced by the
package-level single-result `formatIssueBody`, embedded as the total function
`bodyFmt`. -/
structure XReceiverHandler where
  autoClose : Bool
  resolvedLabel : String
  defaultRepo : String
  extraLabels : List String
  titleTmpl : Message → Except String String
  bodyFmt : Message → String

/-- `getTargetRepo` of the annotation-extension handler (same logic). -/
def XReceiverHandler.getTargetRepo (rh : XReceiverHandler) (msg : Message) : String :=
  let repo := kvGet msg.data.commonLabels "repo"
  if repo ≠ "" then repo else rh.defaultRepo

/-- Outcome of the annotation-extension `processAlert`: normal Go return, or
the runtime panic raised by the unguarded `msg.Data.Alerts[0]` index when the
alerts slice is empty. -/
inductive XResult where
  | ok
  | err (e : PErr)
  | panicIndexOutOfRange
deriving Repr, DecidableEq

/-- The annotation-extension `processAlert`: after listing issues, rendering
the title and scanning for a match, it unconditionally reads
`msg.Data.Alerts[0].Annotations` (before branching on the status), derives
`allLabels = ExtraLabels ++ AdditionalLabels`, and then
 * firing & no match — `CreateIssue(targetRepo, title, body, allLabels)`;
   when the parsed project-column id is non-zero, additionally
   `AssignIssueToProject(createdIssue, columnId)` whose error is only logged;
 * firing & match — remove the resolved label;
 * resolved & match — add the resolved label, then close when `AutoClose`. -/
def processAlertX {σ : Type} (rh : XReceiverHandler) (t : TrackerImpl σ) (s : σ)
    (msg : Message) : XResult × σ × List Call :=
  match t.listOpenIssues s with
  | (.error e, s1) => (.err (.tracker e), s1, [.listOpenIssues])
  | (.ok issues, s1) =>
    match rh.titleTmpl msg with
    | .error e => (.err (.formatTitle msg.groupKey e), s1, [.listOpenIssues])
    | .ok msgTitle =>
      let foundIssue := findIssue msgTitle issues
      match msg.data.alerts[0]? with
      | none => (.panicIndexOutOfRange, s1, [.listOpenIssues])
      | some alert0 =>
        let info := parseAdditionalGithubInfo alert0.annotations
        let allLabels := rh.extraLabels ++ info.additionalLabels
        if msg.data.status = "firing" then
          match foundIssue with
          | none =>
            let msgBody := rh.bodyFmt msg
            let r := t.createIssue (rh.getTargetRepo msg) msgTitle msgBody allLabels s1
            let createRes : XResult :=
              match r.1 with
              | .ok _ => .ok
              | .error e => .err (.tracker e)
            if info.projectColumnId ≠ 0 then
              let a := t.assignIssueToProject r.1.toOption info.projectColumnId r.2
              (createRes, a.2,
               [.listOpenIssues,
                .createIssue (rh.getTargetRepo msg) msgTitle msgBody allLabels,
                .assignIssueToProject r.1.toOption info.projectColumnId])
            else
              (createRes, r.2,
               [.listOpenIssues,
                .createIssue (rh.getTargetRepo msg) msgTitle msgBody allLabels])
          | some issue =>
            let r := t.labelIssue issue rh.resolvedLabel false s1
            ((match r.1 with | .ok _ => .ok | .error e => .err (.tracker e)), r.2,
             [.listOpenIssues, .labelIssue issue rh.resolvedLabel false])
        else if msg.data.status = "resolved" then
          match foundIssue with
          | some issue =>
            let r := t.labelIssue issue rh.resolvedLabel true s1
            match r.1 with
            | .error e =>
              (.err (.tracker e), r.2,
               [.listOpenIssues, .labelIssue issue rh.resolvedLabel true])
            | .ok _ =>
              if rh.autoClose then
                let c := t.closeIssue issue r.2
                ((match c.1 with | .ok _ => XResult.ok | .error e => .err (.tracker e)),
                 c.2,
                 [.listOpenIssues, .labelIssue issue rh.resolvedLabel true,
                  .closeIssue issue])
              else
                (.ok, r.2,
                 [.listOpenIssues, .labelIssue issue rh.resolvedLabel true])
          | none => (.ok, s1, [.listOpenIssues])
        else (.ok, s1, [.listOpenIssues])

/-- `issues.Client`: the configuration read by the request-building and
labeling logic (`org`, `alertLabel`); the authenticated HTTP client itself is
external. -/
structure Client where
  org : String
  alertLabel : String
deriving Repr, DecidableEq

/-- `github.IssueRequest` as built by `Client.CreateIssue`. -/
structure IssueRequest where
  title : String
  body : String
  labels : List String
deriving Repr, DecidableEq

/-- The request constructed by `issues.Client.CreateIssue`:
`labels[0] = c.alertLabel; labels[i+1] = extra[i]`. -/
def Client.createIssueRequest (c : Client) (title body : String)
    (extra : List String) : IssueRequest :=
  { title := title, body := body, labels := c.alertLabel :: extra }

/-- Scan for the first `"://"` and return what follows it. -/
def afterSchemeAux : List Char → Option (List Char)
  | ':' :: '/' :: '/' :: rest => some rest
  | _ :: rest => afterSchemeAux rest
  | [] => none

/-- `net/url` path extraction for the URL shapes handled by
`getOrgAndRepoFromIssue`: for `scheme://host/seg/...` the `/seg/...` part
(empty when there is no slash after the host); a string without `"://"` is
treated as an opaque path (`url.Parse` never fails on these inputs). -/
def urlPath (u : String) : String :=
  match afterSchemeAux u.toList with
  | some rest => String.mk (rest.dropWhile (fun c => c ≠ '/'))
  | none => u

/-- The scan loop of `getOrgAndRepoFromIssue`: find an index `i` with
`fields[i] == "repos"` and `i+2 == len(fields)-1`, returning
`(fields[i+1], fields[i+2])`. -/
def repoFields : List String → Option (String × String)
  | "repos" :: org :: repo :: [] => some (org, repo)
  | _ :: rest => repoFields rest
  | [] => none

/-- `issues.getOrgAndRepoFromIssue`: error when `RepositoryURL` is empty,
split the URL path on `"/"`, require at least 4 fields, then scan for the
`repos/<org>/<repo>` tail. -/
def getOrgAndRepoFromIssue (issue : Issue) : Except String (String × String) :=
  let repoURL := issue.repositoryURL
  if repoURL = "" then .error "issue has invalid RepositoryURL value"
  else
    let fields := splitChar '/' (urlPath repoURL)
    if fields.length < 4 then .error "issue has invalid RepositoryURL path values"
    else
      match repoFields fields with
      | some (org, repo) => .ok (org, repo)
      | none => .error "issue has invalid RepositoryURL path values"

/-- GitHub label-API state: for each `(org, repo, issueNumber)` key of an
existing issue, the labels currently associated with it. -/
structure GhLabelState where
  labelsOn : List ((String × String × Nat) × List String)
deriving Repr, DecidableEq

/-- The labels on an issue, or `none` when the issue does not exist. -/
def GhLabelState.lookup (st : GhLabelState) (k : String × String × Nat) :
    Option (List String) :=
  (st.labelsOn.find? (fun p => p.1 = k)).map (fun p => p.2)

/-- Modelled GitHub `AddLabelsToIssue` semantics, from the comment block in
`issues.Client.LabelIssue` and `TestClient_LabelIssue`: adding a label is
idempotent (a label already present stays present once) and a label unknown
to the repo is silently created; the issue itself must exist (HTTP 404
otherwise).  Returns the HTTP status code and the successor state. -/
def addLabelsToIssue (st : GhLabelState) (k : String × String × Nat)
    (labels : List String) : Nat × GhLabelState :=
  match st.lookup k with
  | none => (404, st)
  | some present =>
      let merged := present ++ labels.filter (fun l => l ∉ present)
      (200,
       ⟨st.labelsOn.map fun p => if p.1 = k then (p.1, merged) else p⟩)

/-- Modelled GitHub `RemoveLabelForIssue` semantics, from the same comment
block: removing an associated label succeeds; removing a label not associated
with the issue, not defined for the repo, or from a nonexistent issue returns
HTTP 404 (go-github surfaces every non-2xx status as a non-nil error). -/
def removeLabelForIssue (st : GhLabelState) (k : String × String × Nat)
    (label : String) : Nat × GhLabelState :=
  match st.lookup k with
  | none => (404, st)
  | some present =>
      if label ∈ present then
        (200,
         ⟨st.labelsOn.map fun p => if p.1 = k then (p.1, p.2.erase label) else p⟩)
      else (404, st)

/-- `issues.Client.LabelIssue`: empty label is a no-op; resolve the issue's
org/repo from its `RepositoryURL`; on add, return the API error as-is; on
remove, a 404 response is treated as success (`err = nil`). -/
def Client.LabelIssue (_c : Client) (st : GhLabelState) (issue : Issue)
    (label : String) (add : Bool) : Except String Unit × GhLabelState :=
  if label = "" then (.ok (), st)
  else
    match getOrgAndRepoFromIssue issue with
    | .error e => (.error e, st)
    | .ok (org, repo) =>
      let k := (org, repo, issue.number)
      if add then
        let r := addLabelsToIssue st k [label]
        ((if 200 ≤ r.1 ∧ r.1 < 300 then .ok () else .error "api error"), r.2)
      else
        let r := removeLabelForIssue st k label
        ((if r.1 = 404 then .ok ()
          else if 200 ≤ r.1 ∧ r.1 < 300 then .ok ()
          else .error "api error"), r.2)

/-- The slice of an inbound `http.Request` the handlers read: the method, the
URL path, and the outcome of `ioutil.ReadAll(req.Body)`. -/
structure HttpRequest where
  method : String
  urlPath : String
  body : Except String String
deriving Repr

/-- An HTTP response as produced through `rw.WriteHeader` / writes to `rw`:
the status code and the accumulated body text. -/
structure HttpResponse where
  statusCode : Nat
  body : String
deriving Repr, DecidableEq

/-- `alerts.ReceiverHandler.ServeHTTP`: 405 on non-POST, 500 on a body read
error, 400 on a JSON decode error (the external `json.Unmarshal` is the
`decode` parameter), 500 when `processAlert` errors, 200 on success — every
path writes only the status header, never a response body. -/
def ReceiverHandler.ServeHTTP {σ : Type} (rh : ReceiverHandler) (t : TrackerImpl σ)
    (s : σ) (decode : String → Except String Message) (req : HttpRequest) :
    HttpResponse × σ :=
  if req.method ≠ "POST" then ({ statusCode := 405, body := "" }, s)
  else
    match req.body with
    | .error _ => ({ statusCode := 500, body := "" }, s)
    | .ok alertBytes =>
      match decode alertBytes with
      | .error _ => ({ statusCode := 400, body := "" }, s)
      | .ok msg =>
        match processAlert rh t s msg with
        | (.error _, s2, _) => ({ statusCode := 500, body := "" }, s2)
        | (.ok _, s2, _) => ({ statusCode := 200, body := "" }, s2)

/-- The open-issues list page produced by `listTemplate` in
`issues/handler.go` (HTML escaping of the interpolated fields is elided). -/
def renderListPage (issues : List Issue) : String :=
  "\n<html><body>\n<h2>Open Issues</h2>\n<table>\n" ++
  String.join (issues.map fun i =>
    "\n  <tr><td><a href=" ++ i.htmlURL ++ ">" ++ i.title ++ "</a></td></tr>\n") ++
  "\n</table>\n<br/>\nReceiver metrics: <a href=\"/metrics\" onclick=\"javascript:event.target.port=9990\">/metrics</a>\n</body></html>"

/-- `issues.ListHandler.ServeHTTP`: 405 with `"Wrong method\n"` off the happy
path; on a `ListOpenIssues` failure, 500 with the error text written into the
body (`fmt.Fprintf(rw, "%s\n", err)`); otherwise the rendered page. -/
def ListHandler.ServeHTTP (listResult : Except String (List Issue))
    (req : HttpRequest) : HttpResponse :=
  if req.urlPath ≠ "/" ∨ req.method ≠ "GET" then
    { statusCode := 405, body := "Wrong method\n" }
  else
    match listResult with
    | .error err => { statusCode := 500, body := err ++ "\n" }
    | .ok issues => { statusCode := 200, body := renderListPage issues }

/-- State of the in-memory tracker: the currently open issues, in creation
order. -/
structure MemState where
  issues : List Issue
deriving Repr, DecidableEq

/-- Set-semantics label addition (GitHub keeps at most one copy). -/
def memAddLabel (label : String) (ls : List String) : List String :=
  if label ∈ ls then ls else ls ++ [label]

/-- In-memory tracker, modelled on `issues/local/local.go` and the fake
clients of the handler tests: every operation succeeds; create appends a new
open issue carrying the requested labels; labeling updates only the label
set of the targeted issue; close removes the issue from the open list. -/
def memTracker : TrackerImpl MemState where
  listOpenIssues s := (.ok s.issues, s)
  createIssue repo title body labels s :=
    let issue : Issue :=
      { number := s.issues.length + 1, title := title, body := body,
        labels := labels,
        repositoryURL := "https://api.github.com/repos/" ++ repo,
        htmlURL := "" }
    (.ok issue, ⟨s.issues ++ [issue]⟩)
  labelIssue issue label add s :=
    (.ok (),
     ⟨s.issues.map fun i =>
        if i.number = issue.number then
          { i with labels := if add then memAddLabel label i.labels
                             else i.labels.erase label }
        else i⟩)
  closeIssue issue s :=
    (.ok issue, ⟨s.issues.filter fun i => i.number ≠ issue.number⟩)
  assignIssueToProject _ _ s := (.ok (), s)

/-- Insertion step for the sorted-key map iteration of `text/template`. -/
def kvInsertSorted (p : String × String) : KV → KV
  | [] => [p]
  | q :: rest => if p.1 ≤ q.1 then p :: q :: rest else q :: kvInsertSorted p rest

/-- `text/template` ranges over a map in increasing key order. -/
def kvSorted : KV → KV
  | [] => []
  | p :: rest => kvInsertSorted p (kvSorted rest)

/-- `DefaultTitleTmpl = "{{ .Data.GroupLabels.alertname }}"`: the
`"alertname"` group label; a missing map key renders as the zero value. -/
def renderDefaultTitle (msg : Message) : Except String String :=
  .ok (kvGet msg.data.groupLabels "alertname")

/-- One iteration of `{{range .Data.Alerts}}…{{end}}` in `DefaultAlertTmpl`,
following the template text and its whitespace trim markers. -/
def renderAlertBlock (a : Alert) : String :=
  "\n  * " ++ a.status ++ " " ++ a.generatorURL ++ "\n  " ++
  (if a.labels ≠ [] then "\n    Labels:" else "") ++
  "\n  " ++
  String.join ((kvSorted a.labels).map fun p => "\n    - " ++ p.1 ++ " = " ++ p.2) ++
  "\n  " ++
  (if a.annotations ≠ [] then "\n    Annotations:" else "") ++
  "\n  " ++
  String.join ((kvSorted a.annotations).map fun p => "\n    - " ++ p.1 ++ " = " ++ p.2) ++
  "\n"

/-- `DefaultAlertTmpl` (`alerts/template.go`): the Alertmanager URL header,
one block per alert, and the trailing TODO line.  All referenced fields exist
in the message shape, so execution never fails. -/
def renderDefaultBody (msg : Message) : Except String String :=
  .ok ("\nAlertmanager URL: " ++ msg.data.externalURL ++ "\n" ++
       String.join (msg.data.alerts.map renderAlertBlock) ++
       "\n\nTODO: add graph url from annotations.\n")

/-! Concrete fixtures used to instantiate the theorems below on executable
inputs: a receiver configured with the default templates, webhook messages in
both states, and an open issue whose title matches the rendered title. -/

/-- A matching open issue, as returned by the tracker. -/
def wIssue : Issue :=
  { number := 1, title := "DiskFull", body := "b", labels := ["alert"],
    repositoryURL := "https://api.github.com/repos/o/r", htmlURL := "" }

/-- A receiver with the default templates, auto-close on. -/
def wRh : ReceiverHandler :=
  { autoClose := true, resolvedLabel := "resolved", defaultRepo := "dr",
    extraLabels := ["extra"], titleTmpl := renderDefaultTitle,
    alertTmpl := renderDefaultBody }

/-- Same receiver with auto-close off. -/
def wRhNoClose : ReceiverHandler := { wRh with autoClose := false }

/-- A firing notification for alert group `DiskFull` (empty alerts slice). -/
def wMsgF : Message :=
  { data := { status := "firing", groupLabels := [("alertname", "DiskFull")],
              commonLabels := [], commonAnnotations := [],
              externalURL := "http://am", alerts := [] },
    groupKey := "gk" }

/-- The corresponding resolved notification. -/
def wMsgR : Message :=
  { wMsgF with data := { wMsgF.data with status := "resolved" } }

/-- The body the default template renders for `wMsgF`. -/
def wBody : String :=
  "\nAlertmanager URL: http://am\n\n\nTODO: add graph url from annotations.\n"

/-- The issue `memTracker` creates for `wMsgF` under `wRh`. -/
def wCreated : Issue :=
  { number := 1, title := "DiskFull", body := wBody, labels := ["extra"],
    repositoryURL := "https://api.github.com/repos/dr", htmlURL := "" }

/-- A tracker whose `ListOpenIssues` fails and whose write operations all
fail, for exercising the error paths. -/
def failTracker : TrackerImpl Unit where
  listOpenIssues s := (.error "list failed", s)
  createIssue _ _ _ _ s := (.error "create failed", s)
  labelIssue _ _ _ s := (.error "label failed", s)
  closeIssue _ s := (.error "close failed", s)
  assignIssueToProject _ _ s := (.error "assign failed", s)

/-- `memTracker` with the write results of `failTracker`: listing succeeds,
every write fails. -/
def failWriteTracker : TrackerImpl MemState where
  listOpenIssues s := (.ok s.issues, s)
  createIssue _ _ _ _ s := (.error "create failed", s)
  labelIssue _ _ _ s := (.error "label failed", s)
  closeIssue _ s := (.error "close failed", s)
  assignIssueToProject _ _ s := (.error "assign failed", s)

/-- `memTracker` except that `AssignIssueToProject` fails, for the best-effort
assignment claim. -/
def failAssignTracker : TrackerImpl MemState where
  listOpenIssues s := (.ok s.issues, s)
  createIssue repo title body labels s :=
    memTracker.createIssue repo title body labels s
  labelIssue issue label add s := memTracker.labelIssue issue label add s
  closeIssue issue s := memTracker.closeIssue issue s
  assignIssueToProject _ _ s := (.error "assign failed", s)

/-- The annotation-extension receiver fixture. -/
def wXRh : XReceiverHandler :=
  { autoClose := true, resolvedLabel := "resolved", defaultRepo := "dr",
    extraLabels := ["extra"], titleTmpl := renderDefaultTitle,
    bodyFmt := fun _ => "BODY" }

/-- An alert carrying both extension annotations. -/
def wAlertX : Alert :=
  { status := "firing", labels := [],
    annotations := [("github-labels", "a,b"), ("github-project-column-id", "7")],
    generatorURL := "g" }

/-- A firing notification whose first alert carries both extension
annotations. -/
def wMsgX : Message :=
  { wMsgF with data := { wMsgF.data with alerts := [wAlertX] } }

/-- The issue the in-memory tracker creates for `wMsgX` under `wXRh`. -/
def wXCreated : Issue :=
  { number := 1, title := "DiskFull", body := "BODY",
    labels := ["extra", "a", "b"],
    repositoryURL := "https://api.github.com/repos/dr", htmlURL := "" }

/-- The per-issue update `memTracker.labelIssue _ label false` applies to the
stored issue list. -/
def memRemoveUpd (label : String) (n : Nat) (i : Issue) : Issue :=
  if i.number = n then { i with labels := i.labels.erase label } else i

/-! ## Theorems -/

lemma memRemoveUpd_title_body (label : String) (n : Nat) (i : Issue) :
    ((memRemoveUpd label n i).title, (memRemoveUpd label n i).body)
      = (i.title, i.body) := by
  unfold memRemoveUpd
  split <;> rfl

lemma memLabelIssue_remove_eq (issue : Issue) (label : String) (s : MemState) :
    memTracker.labelIssue issue label false s
      = (.ok (), ⟨s.issues.map (memRemoveUpd label issue.number)⟩) := rfl

lemma findIssue_map (title : String) (f : Issue → Issue)
    (hf : ∀ i, (f i).title = i.title) (issues : List Issue) :
    findIssue title (issues.map f) = (findIssue title issues).map f := by
  induction issues with
  | nil => simp [findIssue]
  | cons a rest ih =>
    by_cases h : title = a.title
    · simp [findIssue, hf, h]
    · simp [findIssue, hf, h, ih]

lemma map_title_body_compose (g : Issue → Issue)
    (hg : ∀ i, ((g i).title, (g i).body) = (i.title, i.body)) (l : List Issue) :
    (l.map g).map (fun i => (i.title, i.body))
      = l.map (fun i => (i.title, i.body)) := by
  induction l with
  | nil => rfl
  | cons a rest ih => simp only [List.map_cons, hg, ih]

lemma processAlert_firing_match_eq
    (σ : Type) (t : TrackerImpl σ) (s : σ) (rh : ReceiverHandler) (msg : Message)
    (issues : List Issue) (s1 : σ) (title : String) (issue : Issue)
    (hstatus : msg.data.status = "firing")
    (hlist : t.listOpenIssues s = (.ok issues, s1))
    (htitle : rh.titleTmpl msg = .ok title)
    (hfound : findIssue title issues = some issue) :
    processAlert rh t s msg
      = ((t.labelIssue issue rh.resolvedLabel false s1).1.mapError .tracker,
         (t.labelIssue issue rh.resolvedLabel false s1).2,
         [Call.listOpenIssues, Call.labelIssue issue rh.resolvedLabel false]) := by
  unfold processAlert
  rw [hlist, htitle, hstatus]
  simp only [if_pos rfl, hfound, if_true]

/-- Claim C5: issue matching is a linear scan over the open-issue list in
list order returning the first issue whose title is exactly (byte-for-byte,
case-sensitively) equal to the supplied rendered title, and no issue when no
title is exactly equal; no partial or fuzzy matching is performed. -/
theorem findIssue_first_exact_match (title : String) (issues : List Issue) :
    (findIssue title issues = none ↔ ∀ i ∈ issues, title ≠ i.title) ∧
    (∀ i, findIssue title issues = some i →
      i ∈ issues ∧ title = i.title ∧
      ∃ pre post, issues = pre ++ i :: post ∧ ∀ j ∈ pre, title ≠ j.title) := by
  induction issues with
  | nil =>
    exact ⟨by simp [findIssue], by intro i hi; simp [findIssue] at hi⟩
  | cons a rest ih =>
    by_cases h : title = a.title
    · have hfi : findIssue title (a :: rest) = some a := by
        simp [findIssue, h]
      refine ⟨iff_of_false (by simp [hfi]) ?_, ?_⟩
      · intro hall
        exact (hall a (List.mem_cons_self a rest)) h
      · intro i hi
        rw [hfi] at hi
        injection hi with hi
        subst hi
        exact ⟨List.mem_cons_self _ _, h, [], rest, rfl, by simp⟩
    · have hfi : findIssue title (a :: rest) = findIssue title rest := by
        simp [findIssue, h]
      refine ⟨?_, ?_⟩
      · rw [hfi, ih.1]
        constructor
        · intro hall i hi
          rcases List.mem_cons.mp hi with rfl | hm
          · exact h
          · exact hall i hm
        · intro hall i hi
          exact hall i (List.mem_cons_of_mem _ hi)
      · intro i hi
        rw [hfi] at hi
        obtain ⟨hm, ht, pre, post, heq, hpre⟩ := ih.2 i hi
        refine ⟨List.mem_cons_of_mem _ hm, ht, a :: pre, post, by simp [heq], ?_⟩
        intro j hj
        rcases List.mem_cons.mp hj with rfl | hjm
        · exact h
        · exact hpre j hjm

/-- Witness for C5 on a concrete two-issue list: the duplicate-title list
yields the first occurrence. -/
theorem findIssue_first_exact_match_witness :
    wIssue ∈ [{ wIssue with number := 9, title := "Other" }, wIssue] ∧
    "DiskFull" = wIssue.title ∧
    ∃ pre post,
      [{ wIssue with number := 9, title := "Other" }, wIssue]
        = pre ++ wIssue :: post ∧
      ∀ j ∈ pre, "DiskFull" ≠ j.title :=
  (findIssue_first_exact_match "DiskFull"
    [{ wIssue with number := 9, title := "Other" }, wIssue]).2 wIssue (by decide)

/-- Claim C1: for a firing notification with no title-matching open issue the
engine performs exactly one `CreateIssue` call — with the rendered title and
body, the resolved target repository and the configured extra labels — and no
other tracker write; the issue request built by the tracker client labels the
new issue with the alert label followed by exactly those extra labels. -/
theorem processAlert_firing_creates
    (σ : Type) (t : TrackerImpl σ) (s : σ) (rh : ReceiverHandler) (msg : Message)
    (issues : List Issue) (s1 : σ) (title body : String) (created : Issue) (s2 : σ)
    (hstatus : msg.data.status = "firing")
    (hlist : t.listOpenIssues s = (.ok issues, s1))
    (htitle : rh.titleTmpl msg = .ok title)
    (hmatch : findIssue title issues = none)
    (hbody : rh.alertTmpl msg = .ok body)
    (hcreate : t.createIssue (rh.getTargetRepo msg) title body rh.extraLabels s1
               = (.ok created, s2)) :
    processAlert rh t s msg
      = (.ok (), s2,
         [Call.listOpenIssues,
          Call.createIssue (rh.getTargetRepo msg) title body rh.extraLabels]) ∧
    [Call.listOpenIssues,
     Call.createIssue (rh.getTargetRepo msg) title body rh.extraLabels].filter
        Call.isWrite
      = [Call.createIssue (rh.getTargetRepo msg) title body rh.extraLabels] ∧
    ∀ c : Client,
      (c.createIssueRequest title body rh.extraLabels).labels
        = c.alertLabel :: rh.extraLabels := by
  refine ⟨?_, by simp [Call.isWrite], fun c => rfl⟩
  unfold processAlert
  rw [hlist, htitle, hstatus]
  simp only [if_pos rfl, hmatch, hbody, hcreate]
  simp [Except.map, Except.mapError]

/-- Witness for C1: the firing `DiskFull` notification against an empty
in-memory tracker creates exactly one issue. -/
theorem processAlert_firing_creates_witness :
    processAlert wRh memTracker ⟨[]⟩ wMsgF
      = (.ok (), ⟨[wCreated]⟩,
         [Call.listOpenIssues,
          Call.createIssue (wRh.getTargetRepo wMsgF) "DiskFull" wBody
            wRh.extraLabels]) ∧
    [Call.listOpenIssues,
     Call.createIssue (wRh.getTargetRepo wMsgF) "DiskFull" wBody
       wRh.extraLabels].filter Call.isWrite
      = [Call.createIssue (wRh.getTargetRepo wMsgF) "DiskFull" wBody
          wRh.extraLabels] ∧
    ∀ c : Client,
      (c.createIssueRequest "DiskFull" wBody wRh.extraLabels).labels
        = c.alertLabel :: wRh.extraLabels :=
  processAlert_firing_creates MemState memTracker ⟨[]⟩ wRh wMsgF [] ⟨[]⟩
    "DiskFull" wBody wCreated ⟨[wCreated]⟩ rfl rfl rfl rfl rfl rfl

/-- Claim C2: for a resolved notification with a title-matching open issue
the engine makes exactly one `LabelIssue` call applying the configured
resolved label to the matched issue and, when auto-close is enabled, exactly
one `CloseIssue` call on that same issue after the label call; with
auto-close disabled no `CloseIssue` call occurs. -/
theorem processAlert_resolved_labels_then_closes
    (σ : Type) (t : TrackerImpl σ) (s : σ) (rh : ReceiverHandler) (msg : Message)
    (issues : List Issue) (s1 s2 : σ) (title : String) (issue : Issue)
    (hstatus : msg.data.status = "resolved")
    (hlist : t.listOpenIssues s = (.ok issues, s1))
    (htitle : rh.titleTmpl msg = .ok title)
    (hfound : findIssue title issues = some issue)
    (hlabel : t.labelIssue issue rh.resolvedLabel true s1 = (.ok (), s2)) :
    (rh.autoClose = true →
      processAlert rh t s msg
        = (((t.closeIssue issue s2).1.map fun _ => ()).mapError .tracker,
           (t.closeIssue issue s2).2,
           [Call.listOpenIssues, Call.labelIssue issue rh.resolvedLabel true,
            Call.closeIssue issue])) ∧
    (rh.autoClose = false →
      processAlert rh t s msg
        = (.ok (), s2,
           [Call.listOpenIssues, Call.labelIssue issue rh.resolvedLabel true])) := by
  constructor <;> intro hac <;>
    · unfold processAlert
      rw [hlist, htitle, hstatus]
      simp only [String.reduceEq, reduceIte, hfound, hlabel, hac]
      try simp

/-- Witness for C2: the resolved `DiskFull` notification against the
in-memory tracker holding the matching issue, with auto-close on and off. -/
theorem processAlert_resolved_labels_then_closes_witness :
    (wRh.autoClose = true →
      processAlert wRh memTracker ⟨[wIssue]⟩ wMsgR
        = (((memTracker.closeIssue wIssue
              ⟨[{ wIssue with labels := ["alert", "resolved"] }]⟩).1.map
                fun _ => ()).mapError .tracker,
           (memTracker.closeIssue wIssue
              ⟨[{ wIssue with labels := ["alert", "resolved"] }]⟩).2,
           [Call.listOpenIssues, Call.labelIssue wIssue wRh.resolvedLabel true,
            Call.closeIssue wIssue])) ∧
    (wRh.autoClose = false →
      processAlert wRh memTracker ⟨[wIssue]⟩ wMsgR
        = (.ok (), ⟨[{ wIssue with labels := ["alert", "resolved"] }]⟩,
           [Call.listOpenIssues,
            Call.labelIssue wIssue wRh.resolvedLabel true])) :=
  processAlert_resolved_labels_then_closes MemState memTracker ⟨[wIssue]⟩ wRh
    wMsgR [wIssue] ⟨[wIssue]⟩ ⟨[{ wIssue with labels := ["alert", "resolved"] }]⟩
    "DiskFull" wIssue rfl rfl rfl rfl rfl

/-- Claim C3: for a firing notification with a title-matching open issue the
engine performs no `CreateIssue` call — the only tracker write is the single
`LabelIssue` call removing the configured resolved label from the matched
issue — and processing the same firing notification twice against one
pre-existing matching open issue (in-memory tracker) yields zero `CreateIssue`
calls in both runs while leaving every open issue's title and body
unchanged. -/
theorem processAlert_refire_idempotent :
    (∀ (σ : Type) (t : TrackerImpl σ) (s s1 : σ) (rh : ReceiverHandler)
       (msg : Message) (issues : List Issue) (title : String) (issue : Issue),
       msg.data.status = "firing" →
       t.listOpenIssues s = (.ok issues, s1) →
       rh.titleTmpl msg = .ok title →
       findIssue title issues = some issue →
       processAlert rh t s msg
         = ((t.labelIssue issue rh.resolvedLabel false s1).1.mapError .tracker,
            (t.labelIssue issue rh.resolvedLabel false s1).2,
            [Call.listOpenIssues,
             Call.labelIssue issue rh.resolvedLabel false])) ∧
    (∀ (rh : ReceiverHandler) (msg : Message) (s0 : MemState) (title : String)
       (issue : Issue),
       msg.data.status = "firing" →
       rh.titleTmpl msg = .ok title →
       findIssue title s0.issues = some issue →
       (processAlert rh memTracker s0 msg).2.2.filter Call.isCreate = [] ∧
       (processAlert rh memTracker (processAlert rh memTracker s0 msg).2.1
          msg).2.2.filter Call.isCreate = [] ∧
       ((processAlert rh memTracker (processAlert rh memTracker s0 msg).2.1
          msg).2.1).issues.map (fun i => (i.title, i.body))
         = s0.issues.map (fun i => (i.title, i.body))) := by
  constructor
  · intro σ t s s1 rh msg issues title issue hstatus hlist htitle hfound
    exact processAlert_firing_match_eq σ t s rh msg issues s1 title issue
      hstatus hlist htitle hfound
  · intro rh msg s0 title issue hstatus htitle hfound
    have h1 := processAlert_firing_match_eq MemState memTracker s0 rh msg
      s0.issues s0 title issue hstatus rfl htitle hfound
    rw [memLabelIssue_remove_eq] at h1
    have hupd : ∀ i, (memRemoveUpd rh.resolvedLabel issue.number i).title
        = i.title := by
      intro i
      unfold memRemoveUpd
      split <;> rfl
    have hfound2 : findIssue title
        (s0.issues.map (memRemoveUpd rh.resolvedLabel issue.number))
        = some (memRemoveUpd rh.resolvedLabel issue.number issue) := by
      rw [findIssue_map title _ hupd s0.issues, hfound]
      rfl
    have h2 := processAlert_firing_match_eq MemState memTracker
      ⟨s0.issues.map (memRemoveUpd rh.resolvedLabel issue.number)⟩ rh msg
      (s0.issues.map (memRemoveUpd rh.resolvedLabel issue.number))
      ⟨s0.issues.map (memRemoveUpd rh.resolvedLabel issue.number)⟩ title
      (memRemoveUpd rh.resolvedLabel issue.number issue) hstatus rfl htitle
      hfound2
    rw [memLabelIssue_remove_eq] at h2
    rw [h1]
    refine ⟨by simp [Call.isCreate], ?_, ?_⟩
    · rw [h2]
      simp [Call.isCreate]
    · rw [h2]
      simp only []
      rw [map_title_body_compose _ (memRemoveUpd_title_body _ _),
          map_title_body_compose _ (memRemoveUpd_title_body _ _)]

/-- Witness for C3: the firing `DiskFull` notification processed twice
against the in-memory tracker holding the matching issue. -/
theorem processAlert_refire_idempotent_witness :
    (processAlert wRh memTracker ⟨[wIssue]⟩ wMsgF).2.2.filter Call.isCreate
      = [] ∧
    (processAlert wRh memTracker
       (processAlert wRh memTracker ⟨[wIssue]⟩ wMsgF).2.1
       wMsgF).2.2.filter Call.isCreate = [] ∧
    ((processAlert wRh memTracker
       (processAlert wRh memTracker ⟨[wIssue]⟩ wMsgF).2.1 wMsgF).2.1).issues.map
        (fun i => (i.title, i.body))
      = (⟨[wIssue]⟩ : MemState).issues.map (fun i => (i.title, i.body)) :=
  processAlert_refire_idempotent.2 wRh wMsgF ⟨[wIssue]⟩ "DiskFull" wIssue
    rfl rfl rfl

/-- Claim C4: the first failing tracker call aborts the reconciliation with
that error and no later tracker call is made: a `ListOpenIssues` failure
yields no write at all; a failing `CreateIssue` is the last call of the
firing/no-match branch; a failing label-removal is the last call of the
re-fire branch; and in the resolved branch a failing apply-label call
prevents the auto-close `CloseIssue` call. -/
theorem processAlert_first_failure_aborts :
    (∀ (σ : Type) (t : TrackerImpl σ) (s s1 : σ) (rh : ReceiverHandler)
       (msg : Message) (e : String),
       t.listOpenIssues s = (.error e, s1) →
       processAlert rh t s msg
         = (.error (.tracker e), s1, [Call.listOpenIssues])) ∧
    (∀ (σ : Type) (t : TrackerImpl σ) (s s1 s2 : σ) (rh : ReceiverHandler)
       (msg : Message) (issues : List Issue) (title body e : String),
       msg.data.status = "firing" →
       t.listOpenIssues s = (.ok issues, s1) →
       rh.titleTmpl msg = .ok title →
       findIssue title issues = none →
       rh.alertTmpl msg = .ok body →
       t.createIssue (rh.getTargetRepo msg) title body rh.extraLabels s1
         = (.error e, s2) →
       processAlert rh t s msg
         = (.error (.tracker e), s2,
            [Call.listOpenIssues,
             Call.createIssue (rh.getTargetRepo msg) title body
               rh.extraLabels])) ∧
    (∀ (σ : Type) (t : TrackerImpl σ) (s s1 s2 : σ) (rh : ReceiverHandler)
       (msg : Message) (issues : List Issue) (title : String) (issue : Issue)
       (e : String),
       msg.data.status = "firing" →
       t.listOpenIssues s = (.ok issues, s1) →
       rh.titleTmpl msg = .ok title →
       findIssue title issues = some issue →
       t.labelIssue issue rh.resolvedLabel false s1 = (.error e, s2) →
       processAlert rh t s msg
         = (.error (.tracker e), s2,
            [Call.listOpenIssues,
             Call.labelIssue issue rh.resolvedLabel false])) ∧
    (∀ (σ : Type) (t : TrackerImpl σ) (s s1 s2 : σ) (rh : ReceiverHandler)
       (msg : Message) (issues : List Issue) (title : String) (issue : Issue)
       (e : String),
       msg.data.status = "resolved" →
       t.listOpenIssues s = (.ok issues, s1) →
       rh.titleTmpl msg = .ok title →
       findIssue title issues = some issue →
       t.labelIssue issue rh.resolvedLabel true s1 = (.error e, s2) →
       processAlert rh t s msg
         = (.error (.tracker e), s2,
            [Call.listOpenIssues,
             Call.labelIssue issue rh.resolvedLabel true])) := by
  refine ⟨?_, ?_, ?_, ?_⟩
  · intro σ t s s1 rh msg e hlist
    unfold processAlert
    rw [hlist]
  · intro σ t s s1 s2 rh msg issues title body e hstatus hlist htitle hmatch
      hbody hcreate
    unfold processAlert
    rw [hlist, htitle, hstatus]
    simp only [if_pos rfl, hmatch, hbody, hcreate, if_true]
    rfl
  · intro σ t s s1 s2 rh msg issues title issue e hstatus hlist htitle hfound
      hlabel
    rw [processAlert_firing_match_eq σ t s rh msg issues s1 title issue
      hstatus hlist htitle hfound, hlabel]
    rfl
  · intro σ t s s1 s2 rh msg issues title issue e hstatus hlist htitle hfound
      hlabel
    unfold processAlert
    rw [hlist, htitle, hstatus]
    simp only [String.reduceEq, reduceIte, hfound, hlabel]

/-- Witness for C4: each failure mode exercised on a concrete failing
tracker. -/
theorem processAlert_first_failure_aborts_witness :
    processAlert wRh failTracker () wMsgF
      = (.error (.tracker "list failed"), (), [Call.listOpenIssues]) ∧
    processAlert wRh failWriteTracker ⟨[]⟩ wMsgF
      = (.error (.tracker "create failed"), ⟨[]⟩,
         [Call.listOpenIssues,
          Call.createIssue (wRh.getTargetRepo wMsgF) "DiskFull" wBody
            wRh.extraLabels]) ∧
    processAlert wRh failWriteTracker ⟨[wIssue]⟩ wMsgF
      = (.error (.tracker "label failed"), ⟨[wIssue]⟩,
         [Call.listOpenIssues,
          Call.labelIssue wIssue wRh.resolvedLabel false]) ∧
    processAlert wRh failWriteTracker ⟨[wIssue]⟩ wMsgR
      = (.error (.tracker "label failed"), ⟨[wIssue]⟩,
         [Call.listOpenIssues,
          Call.labelIssue wIssue wRh.resolvedLabel true]) :=
  ⟨processAlert_first_failure_aborts.1 Unit failTracker () () wRh wMsgF
     "list failed" rfl,
   processAlert_first_failure_aborts.2.1 MemState failWriteTracker ⟨[]⟩ ⟨[]⟩
     ⟨[]⟩ wRh wMsgF [] "DiskFull" wBody "create failed" rfl rfl rfl rfl rfl rfl,
   processAlert_first_failure_aborts.2.2.1 MemState failWriteTracker ⟨[wIssue]⟩
     ⟨[wIssue]⟩ ⟨[wIssue]⟩ wRh wMsgF [wIssue] "DiskFull" wIssue "label failed"
     rfl rfl rfl rfl rfl,
   processAlert_first_failure_aborts.2.2.2 MemState failWriteTracker ⟨[wIssue]⟩
     ⟨[wIssue]⟩ ⟨[wIssue]⟩ wRh wMsgR [wIssue] "DiskFull" wIssue "label failed"
     rfl rfl rfl rfl rfl⟩

/-- Claim C9: for a notification with an empty alerts sequence, both default
templates render without error — the title is the `"alertname"` group label
and the body degenerates to the header and footer around a zero-length
range. -/
theorem defaultTemplates_tolerate_empty_alerts (msg : Message)
    (h : msg.data.alerts = []) :
    renderDefaultTitle msg = .ok (kvGet msg.data.groupLabels "alertname") ∧
    renderDefaultBody msg
      = .ok ("\nAlertmanager URL: " ++
             (msg.data.externalURL ++
              "\n\n\nTODO: add graph url from annotations.\n")) := by
  refine ⟨rfl, ?_⟩
  unfold renderDefaultBody
  rw [h]
  simp only [List.map_nil, String.append_assoc]
  rw [show ("\n" ++ (String.join ([] : List String) ++
        "\n\nTODO: add graph url from annotations.\n") : String)
      = "\n\n\nTODO: add graph url from annotations.\n" from rfl]

/-- Witness for C9: the fixture notification has an empty alerts sequence and
both default templates render it. -/
theorem defaultTemplates_tolerate_empty_alerts_witness :
    renderDefaultTitle wMsgF = .ok (kvGet wMsgF.data.groupLabels "alertname") ∧
    renderDefaultBody wMsgF
      = .ok ("\nAlertmanager URL: " ++
             (wMsgF.data.externalURL ++
              "\n\n\nTODO: add graph url from annotations.\n")) :=
  defaultTemplates_tolerate_empty_alerts wMsgF rfl

/-- Claim C10: the annotation-extension `processAlert` dereferences the first
element of the alerts sequence before branching on the notification status,
so an empty alerts sequence makes every notification — resolved ones
included — hit the index-out-of-range access right after listing and
matching. -/
theorem processAlertX_requires_nonempty_alerts
    (σ : Type) (t : TrackerImpl σ) (s s1 : σ) (rh : XReceiverHandler)
    (msg : Message) (issues : List Issue) (title : String)
    (hlist : t.listOpenIssues s = (.ok issues, s1))
    (htitle : rh.titleTmpl msg = .ok title)
    (halerts : msg.data.alerts = []) :
    processAlertX rh t s msg
      = (.panicIndexOutOfRange, s1, [Call.listOpenIssues]) := by
  unfold processAlertX
  rw [hlist, htitle, halerts]
  rfl

/-- Witness for C10: a resolved notification with no alerts hits the
first-element access. -/
theorem processAlertX_requires_nonempty_alerts_witness :
    processAlertX wXRh memTracker ⟨[]⟩ wMsgR
      = (.panicIndexOutOfRange, ⟨[]⟩, [Call.listOpenIssues]) :=
  processAlertX_requires_nonempty_alerts MemState memTracker ⟨[]⟩ ⟨[]⟩ wXRh
    wMsgR [] "DiskFull" rfl rfl rfl

/-- Claim C6: in the annotation-extension engine, the labels named by the
first alert's comma-separated `"github-labels"` annotation augment the
created issue's label set, a valid (non-zero, parseable)
`"github-project-column-id"` annotation triggers exactly one
`AssignIssueToProject` call when a new issue is created — the engine result
is success independently of the assign call's outcome, so its failure does
not fail the request — and an `AssignIssueToProject` call can only occur in
the firing/no-match (creation) branch with a non-zero parsed column id. -/
theorem processAlertX_annotation_extension :
    (∀ (σ : Type) (t : TrackerImpl σ) (s s1 s2 s3 : σ) (rh : XReceiverHandler)
       (msg : Message) (alert0 : Alert) (rest : List Alert)
       (issues : List Issue) (title : String) (created : Issue)
       (ares : Except String Unit),
       msg.data.alerts = alert0 :: rest →
       msg.data.status = "firing" →
       t.listOpenIssues s = (.ok issues, s1) →
       rh.titleTmpl msg = .ok title →
       findIssue title issues = none →
       (parseAdditionalGithubInfo alert0.annotations).projectColumnId ≠ 0 →
       t.createIssue (rh.getTargetRepo msg) title (rh.bodyFmt msg)
           (rh.extraLabels ++
            (parseAdditionalGithubInfo alert0.annotations).additionalLabels) s1
         = (.ok created, s2) →
       t.assignIssueToProject (some created)
           (parseAdditionalGithubInfo alert0.annotations).projectColumnId s2
         = (ares, s3) →
       processAlertX rh t s msg
         = (.ok, s3,
            [Call.listOpenIssues,
             Call.createIssue (rh.getTargetRepo msg) title (rh.bodyFmt msg)
               (rh.extraLabels ++
                (parseAdditionalGithubInfo alert0.annotations).additionalLabels),
             Call.assignIssueToProject (some created)
               (parseAdditionalGithubInfo alert0.annotations).projectColumnId])) ∧
    (∀ (σ : Type) (t : TrackerImpl σ) (s : σ) (rh : XReceiverHandler)
       (msg : Message) (c : Call),
       c ∈ (processAlertX rh t s msg).2.2 → c.isAssign = true →
       msg.data.status = "firing" ∧
       ∃ issues s1 title alert0 rest,
         t.listOpenIssues s = (.ok issues, s1) ∧
         rh.titleTmpl msg = .ok title ∧
         findIssue title issues = none ∧
         msg.data.alerts = alert0 :: rest ∧
         (parseAdditionalGithubInfo alert0.annotations).projectColumnId ≠ 0) := by
  constructor
  · intro σ t s s1 s2 s3 rh msg alert0 rest issues title created ares halerts
      hstatus hlist htitle hfound hcol hcreate hassign
    unfold processAlertX
    rw [hlist, htitle, halerts, hstatus]
    simp only [List.getElem?_cons_zero, if_pos rfl, hfound, if_pos hcol,
      hcreate, Except.toOption, if_true]
    rw [hassign]
  · intro σ t s rh msg c hc hassign
    unfold processAlertX at hc
    rcases hl : t.listOpenIssues s with ⟨lres, s1⟩
    rw [hl] at hc
    cases lres with
    | error e =>
      simp at hc
      subst hc
      simp [Call.isAssign] at hassign
    | ok issues =>
      rcases ht : rh.titleTmpl msg with e | title
      · rw [ht] at hc
        simp at hc
        subst hc
        simp [Call.isAssign] at hassign
      · rw [ht] at hc
        rcases ha : msg.data.alerts with _ | ⟨alert0, rest⟩
        · rw [ha] at hc
          simp at hc
          subst hc
          simp [Call.isAssign] at hassign
        · rw [ha] at hc
          simp only [List.getElem?_cons_zero] at hc
          by_cases hstat : msg.data.status = "firing"
          · rw [hstat] at hc
            simp only [if_pos rfl] at hc
            rcases hf : findIssue title issues with _ | issue
            · rw [hf] at hc
              by_cases hcol :
                  (parseAdditionalGithubInfo alert0.annotations).projectColumnId ≠ 0
              · exact ⟨hstat, issues, s1, title, alert0, rest, rfl, rfl, hf, rfl, hcol⟩
              · rw [if_neg hcol] at hc
                simp at hc
                rcases hc with hc | hc <;> subst hc <;>
                  simp [Call.isAssign] at hassign
            · rw [hf] at hc
              simp at hc
              rcases hc with hc | hc <;> subst hc <;>
                simp [Call.isAssign] at hassign
          · rw [if_neg hstat] at hc
            by_cases hstat2 : msg.data.status = "resolved"
            · rw [hstat2] at hc
              simp only [if_pos rfl] at hc
              rcases hf : findIssue title issues with _ | issue
              · rw [hf] at hc
                simp at hc
                subst hc
                simp [Call.isAssign] at hassign
              · rw [hf] at hc
                dsimp only [] at hc
                rcases hlr : t.labelIssue issue rh.resolvedLabel true s1
                  with ⟨lr, s2⟩
                rw [hlr] at hc
                cases lr with
                | error e =>
                  simp at hc
                  rcases hc with hc | hc <;> subst hc <;>
                    simp [Call.isAssign] at hassign
                | ok u =>
                  by_cases hac : rh.autoClose = true
                  · rw [hac] at hc
                    simp at hc
                    rcases hc with hc | hc | hc <;> subst hc <;>
                      simp [Call.isAssign] at hassign
                  · rw [if_neg hac] at hc
                    simp at hc
                    rcases hc with hc | hc <;> subst hc <;>
                      simp [Call.isAssign] at hassign
            · rw [if_neg hstat2] at hc
              simp at hc
              subst hc
              simp [Call.isAssign] at hassign

/-- Witness for C6: the annotated firing notification against an empty
in-memory tracker whose project-assignment call fails — the issue is created
with the augmented label set, the assign call is made, and the engine still
succeeds. -/
theorem processAlertX_annotation_extension_witness :
    processAlertX wXRh failAssignTracker ⟨[]⟩ wMsgX
      = (.ok, ⟨[wXCreated]⟩,
         [Call.listOpenIssues,
          Call.createIssue (wXRh.getTargetRepo wMsgX) "DiskFull"
            (wXRh.bodyFmt wMsgX)
            (wXRh.extraLabels ++
             (parseAdditionalGithubInfo wAlertX.annotations).additionalLabels),
          Call.assignIssueToProject (some wXCreated)
            (parseAdditionalGithubInfo wAlertX.annotations).projectColumnId]) :=
  processAlertX_annotation_extension.1 MemState failAssignTracker ⟨[]⟩ ⟨[]⟩
    ⟨[wXCreated]⟩ ⟨[wXCreated]⟩ wXRh wMsgX wAlertX [] [] "DiskFull" wXCreated
    (.error "assign failed") rfl rfl rfl rfl rfl (by decide) rfl rfl

/-- Counterexample to C7 as stated: `LabelIssue` is not error-free for
*every* issue — removing a label that is not present from an issue whose
`RepositoryURL` is empty surfaces the invalid-RepositoryURL error (the
repository's own test `failure-bad-issue` expects this error on a remove). -/
theorem labelIssue_invalid_repo_url_errors :
    (Client.LabelIssue ⟨"o", "alert"⟩ ⟨[]⟩
       { number := 1, title := "t", body := "", labels := [],
         repositoryURL := "", htmlURL := "" } "x" false).1
      = .error "issue has invalid RepositoryURL value" ∧
    (Except.error "issue has invalid RepositoryURL value"
       : Except String Unit) ≠ .ok () :=
  ⟨rfl, by simp⟩

/-- Claim C7 (amended to issues whose repository URL resolves): for every
issue whose `RepositoryURL` yields an org/repo pair and which exists in the
label store, adding a label already present succeeds without error, and
removing a label that is not present does not surface an error — the 404
response on remove is treated as success. -/
theorem labelIssue_idempotent_for_resolvable_issue
    (c : Client) (st : GhLabelState) (issue : Issue) (label : String)
    (org repo : String) (labs : List String)
    (hurl : getOrgAndRepoFromIssue issue = .ok (org, repo))
    (hlabs : st.lookup (org, repo, issue.number) = some labs) :
    (label ∈ labs → (c.LabelIssue st issue label true).1 = .ok ()) ∧
    (label ∉ labs → (c.LabelIssue st issue label false).1 = .ok ()) := by
  constructor <;> intro hmem <;> by_cases hl : label = "" <;>
    unfold Client.LabelIssue
  · simp [hl]
  · rw [if_neg hl, hurl]
    dsimp only []
    unfold addLabelsToIssue
    rw [hlabs]
    simp
  · simp [hl]
  · rw [if_neg hl, hurl]
    dsimp only []
    unfold removeLabelForIssue
    rw [hlabs]
    simp [hmem]

/-- Witness for the amended C7 on a concrete issue and label store. -/
theorem labelIssue_idempotent_for_resolvable_issue_witness :
    (Client.LabelIssue ⟨"o", "alertlbl"⟩ ⟨[(("o", "r", 1), ["alert"])]⟩ wIssue
       "alert" true).1 = .ok () ∧
    (Client.LabelIssue ⟨"o", "alertlbl"⟩ ⟨[(("o", "r", 1), ["alert"])]⟩ wIssue
       "other" false).1 = .ok () :=
  ⟨(labelIssue_idempotent_for_resolvable_issue ⟨"o", "alertlbl"⟩
      ⟨[(("o", "r", 1), ["alert"])]⟩ wIssue "alert" "o" "r" ["alert"] rfl
      rfl).1 (by simp),
   (labelIssue_idempotent_for_resolvable_issue ⟨"o", "alertlbl"⟩
      ⟨[(("o", "r", 1), ["alert"])]⟩ wIssue "other" "o" "r" ["alert"] rfl
      rfl).2 (by simp)⟩

/-- Counterexample to C8 as stated: the open-issues list page's failure
response is not empty — the `ListOpenIssues` error text is written into the
response body. -/
theorem listPage_failure_echoes_error :
    ListHandler.ServeHTTP (.error "boom")
        { method := "GET", urlPath := "/", body := .ok "" }
      = { statusCode := 500, body := "boom\n" } ∧
    ("boom\n" : String) ≠ "" :=
  ⟨rfl, by simp⟩

/-- Claim C8 (amended): every response of the receiver endpoint has an empty
body — in particular an engine failure on a well-formed POST maps to an
opaque 500 with no error detail — while the open-issues list page's failure
response is a 500 whose body carries the error text. -/
theorem receiver_opaque_errors_list_page_echoes :
    (∀ (σ : Type) (t : TrackerImpl σ) (s : σ) (rh : ReceiverHandler)
       (decode : String → Except String Message) (req : HttpRequest),
       ((rh.ServeHTTP t s decode req).1).body = "") ∧
    (∀ (σ : Type) (t : TrackerImpl σ) (s s2 : σ) (rh : ReceiverHandler)
       (decode : String → Except String Message) (req : HttpRequest)
       (bytes : String) (msg : Message) (e : PErr) (tr : List Call),
       req.method = "POST" → req.body = .ok bytes → decode bytes = .ok msg →
       processAlert rh t s msg = (.error e, s2, tr) →
       (rh.ServeHTTP t s decode req).1 = { statusCode := 500, body := "" }) ∧
    (∀ (err : String) (req : HttpRequest),
       req.urlPath = "/" → req.method = "GET" →
       ListHandler.ServeHTTP (.error err) req
         = { statusCode := 500, body := err ++ "\n" }) := by
  refine ⟨?_, ?_, ?_⟩
  · intro σ t s rh decode req
    unfold ReceiverHandler.ServeHTTP
    repeat' split <;> try rfl
  · intro σ t s s2 rh decode req bytes msg e tr hmethod hbody hdecode hproc
    unfold ReceiverHandler.ServeHTTP
    rw [hmethod, hbody]
    dsimp only []
    rw [hdecode]
    dsimp only []
    rw [hproc]
    rfl
  · intro err req hpath hmethod
    unfold ListHandler.ServeHTTP
    rw [hpath, hmethod]
    simp

/-- Witness for the amended C8: a failing tracker behind a well-formed POST
yields a 500 with an empty body, and the list page echoes a concrete error. -/
theorem receiver_opaque_errors_list_page_echoes_witness :
    (ReceiverHandler.ServeHTTP wRh failTracker ()
        (fun _ => .ok wMsgF)
        { method := "POST", urlPath := "/v1/receiver", body := .ok "x" }).1
      = { statusCode := 500, body := "" } ∧
    ListHandler.ServeHTTP (.error "boom")
        { method := "GET", urlPath := "/", body := .ok "" }
      = { statusCode := 500, body := "boom" ++ "\n" } :=
  ⟨receiver_opaque_errors_list_page_echoes.2.1 Unit failTracker () () wRh
     (fun _ => .ok wMsgF)
     { method := "POST", urlPath := "/v1/receiver", body := .ok "x" } "x"
     wMsgF (.tracker "list failed") [Call.listOpenIssues] rfl rfl rfl rfl,
   receiver_opaque_errors_list_page_echoes.2.2 "boom"
     { method := "GET", urlPath := "/", body := .ok "" } rfl rfl⟩

end AGR
